import Mathlib

/-!
Shallow embedding of the agent framework code embedded in the repository's
guide (`src/unnamed/part_000`): the `PathValidator`, `ToolRegistry`,
`BaseTool` prehook plumbing, `MCPToolProxy`, `BashTool` and the
`AutonomousAgent` loop, together with theorems settling the frozen claims
about them.

Python strings are modelled as Lean `String` (a wrapper around `List Char`),
Python `os.path.realpath` as an explicit parameter `canon : String → String`
(the canonicalization the OS performs; pure within one call), exceptions as
`Except`, and in-place dict mutation as explicitly returned updated mappings.
-/

namespace Celestra

/-- Model of Python `str.startswith`: character-list prefix test. -/
def pyStartsWith (s pre : String) : Bool :=
  pre.data.isPrefixOf s.data

/-- Model of Python `str.endswith`: character-list suffix test. -/
def pyEndsWith (s suf : String) : Bool :=
  suf.data.isSuffixOf s.data

/-- Model of Python `os.path.join a b` (POSIX, two arguments): an absolute
second component replaces the first; otherwise the components are joined
with a single `/` unless the first already ends in one or is empty. -/
def osPathJoin (a b : String) : String :=
  if pyStartsWith b "/" then b
  else if a = "" then b
  else if pyEndsWith a "/" then a ++ b
  else a ++ "/" ++ b

theorem isPrefixOf_iff_exists (l₁ l₂ : List Char) :
    l₁.isPrefixOf l₂ = true ↔ ∃ t, l₂ = l₁ ++ t := by
  induction l₁ generalizing l₂ with
  | nil => simp
  | cons a as ih =>
    cases l₂ with
    | nil =>
      simp [List.isPrefixOf]
    | cons b bs =>
      simp only [List.isPrefixOf, Bool.and_eq_true, beq_iff_eq, ih, List.cons_append,
        List.cons.injEq]
      constructor
      · rintro ⟨rfl, t, rfl⟩
        exact ⟨t, rfl, rfl⟩
      · rintro ⟨t, rfl, rfl⟩
        exact ⟨rfl, t, rfl⟩

theorem string_data_append (s t : String) : (s ++ t).data = s.data ++ t.data := rfl

theorem pyStartsWith_iff_exists (s pre : String) :
    pyStartsWith s pre = true ↔ ∃ rest, s = pre ++ rest := by
  unfold pyStartsWith
  rw [isPrefixOf_iff_exists]
  constructor
  · rintro ⟨t, ht⟩
    refine ⟨⟨t⟩, ?_⟩
    cases s with
    | mk d => cases pre with
      | mk d₂ =>
        simp only [String.data] at ht
        simp [ht]
        rfl
  · rintro ⟨rest, rfl⟩
    exact ⟨rest.data, rfl⟩

/-- The exception raised by `PathValidator.validate` when a path escapes
the workspace (`class SecurityError(Exception)` in the source); carries the
formatted message. -/
structure SecurityError where
  message : String
deriving DecidableEq, Repr

/-- Model of `PathValidator.__init__`: the stored `workspace_dir` is
`os.path.realpath(workspace_dir)`. -/
def PathValidator.mkWorkspace (canon : String → String) (workspace_dir : String) : String :=
  canon workspace_dir

/-- The `resolved` value computed by the first half of
`PathValidator.validate`: relative paths are joined to the workspace root
before canonicalization, absolute paths are canonicalized directly. -/
def PathValidator.resolve (canon : String → String) (workspace_dir path : String) : String :=
  if ¬ pyStartsWith path "/" then canon (osPathJoin workspace_dir path)
  else canon path

/-- Embedding of `PathValidator.validate` (guide lines 481–503):
resolve the path, then require `resolved.startswith(workspace_dir + os.sep)`;
on failure raise `SecurityError` with the formatted message, on success
return `resolved`. `workspace_dir` is assumed to be the field set by
`PathValidator.mkWorkspace`. -/
def PathValidator.validate (canon : String → String) (workspace_dir path operation : String) :
    Except SecurityError String :=
  let resolved := PathValidator.resolve canon workspace_dir path
  if ¬ pyStartsWith resolved (workspace_dir ++ "/") then
    .error ⟨"Access denied: " ++ operation ++ " outside workspace. " ++
      "Path: " ++ path ++ " -> " ++ resolved⟩
  else
    .ok resolved

/-- The parameter mapping a tool invocation receives (Python `Dict` of
string-valued parameters, the shape used by the file tools and prehooks). -/
abbrev Params := List (String × String)

/-- Model of Python `param in input` followed by `input[param]`:
first binding of the key in the mapping. -/
def Params.get (input : Params) (key : String) : Option String :=
  (input.find? (fun kv => kv.1 == key)).map (·.2)

/-- Model of the in-place update `input[param] = value`. -/
def Params.set (input : Params) (key value : String) : Params :=
  if (input.find? (fun kv => kv.1 == key)).isSome then
    input.map (fun kv => if kv.1 == key then (kv.1, value) else kv)
  else
    input ++ [(key, value)]

/-- The uniform result envelope every tool returns:
`{"content": str, "is_error": bool}`. -/
structure ToolResult where
  content : String
  is_error : Bool
deriving DecidableEq, Repr

/-- Embedding of a concrete `BaseTool`: its `name`, the optional `_prehook`
slot installed by `ToolRegistry.set_prehook`, and its `execute`. A prehook
may mutate the parameters in place (modelled by returning the updated
mapping) or raise (modelled by `Except.error` carrying `str(e)`); `execute`
returns a `ToolResult` or raises. -/
structure Tool where
  name : String
  prehookFn : Option (Params → Except String Params)
  execute : Params → Except String ToolResult

/-- Embedding of `BaseTool.prehook` (guide lines 284–287): run the
installed `_prehook` if any, otherwise do nothing. -/
def Tool.prehook (t : Tool) (input : Params) : Except String Params :=
  match t.prehookFn with
  | none => .ok input
  | some h => h input

/-- The registry's `self.tools` dict, keyed by tool name. -/
structure ToolRegistry where
  tools : List (String × Tool)

/-- Model of Python `tool_name in self.tools` / `self.tools[tool_name]`. -/
def ToolRegistry.lookup (reg : ToolRegistry) (tool_name : String) : Option Tool :=
  (reg.tools.find? (fun kv => kv.1 == tool_name)).map (·.2)

/-- Embedding of `ToolRegistry.register`: `self.tools[tool.name] = tool`. -/
def ToolRegistry.register (reg : ToolRegistry) (tool : Tool) : ToolRegistry :=
  if (reg.tools.find? (fun kv => kv.1 == tool.name)).isSome then
    ⟨reg.tools.map (fun kv => if kv.1 == tool.name then (kv.1, tool) else kv)⟩
  else
    ⟨reg.tools ++ [(tool.name, tool)]⟩

/-- Embedding of `ToolRegistry.execute` (guide lines 344–358): unknown
names yield an error result; the tool's prehook runs inside `try/except`
and a raised exception becomes an error result; after prehook success the
tool's own `execute` is called with no surrounding `try/except`, so its
outcome — exception included — is returned as-is. -/
def ToolRegistry.execute (reg : ToolRegistry) (tool_name : String) (input : Params) :
    Except String ToolResult :=
  match reg.lookup tool_name with
  | none => .ok ⟨"Unknown tool: " ++ tool_name, true⟩
  | some tool =>
    match tool.prehook input with
    | .error e => .ok ⟨e, true⟩
    | .ok input2 => tool.execute input2

/-- Embedding of `create_path_validation_prehook` (guide lines 517–528):
for each of the parameters `file_path` and `path` present in the input,
replace its value with the validator's canonical path; a `SecurityError`
raised by the validator propagates out of the hook as `str(e)`. -/
def create_path_validation_prehook (canon : String → String) (workspace_dir : String)
    (input : Params) : Except String Params := do
  let step := fun (acc : Params) (param : String) =>
    match acc.get param with
    | none => (Except.ok acc : Except String Params)
    | some v =>
      match PathValidator.validate canon workspace_dir v "access" with
      | .error e => .error e.message
      | .ok r => .ok (acc.set param r)
  let acc1 ← step input "file_path"
  step acc1 "path"

/-- One typed content block of an MCP result (`{"type": ..., "text": ...}`). -/
structure ContentBlock where
  type : String
  text : String
deriving DecidableEq, Repr

/-- The heterogeneous result shape a wrapped MCP capability may return:
a plain string or a list of typed content blocks. -/
inductive MCPContent where
  | str (s : String)
  | blocks (bs : List ContentBlock)
deriving DecidableEq, Repr

/-- The envelope `MCPToolProxy.execute` returns:
`{"content": result, "is_error": False}` with the wrapped function's
result placed in `content` unchanged. -/
structure MCPResult where
  content : MCPContent
  is_error : Bool
deriving DecidableEq, Repr

/-- Embedding of `MCPToolProxy.execute` (guide lines 453–455):
`result = await self.tool_fn(input); return {"content": result,
"is_error": False}` — there is no `try/except`, so an exception raised by
the wrapped `tool_fn` propagates to the caller. -/
def MCPToolProxy.execute (tool_fn : Params → Except String MCPContent) (input : Params) :
    Except String MCPResult :=
  match tool_fn input with
  | .error e => .error e
  | .ok result => .ok ⟨result, false⟩

/-- Embedding of the `MCPToolProxy.name` property:
`f"mcp__{self.mcp_name}__{self.tool_name}"`. -/
def MCPToolProxy.name (mcp_name tool_name : String) : String :=
  "mcp__" ++ mcp_name ++ "__" ++ tool_name

/-- The input of `BashTool.execute`: `input["command"]` and the optional
`input.get("timeout", 120000)` in milliseconds. -/
structure BashInput where
  command : String
  timeout : Option ℕ
deriving DecidableEq, Repr

/-- The observable behaviour of the shell process the command spawns:
how long it runs (seconds), what it writes to the two streams, and its
exit code. This stands for the environment's side of
`asyncio.create_subprocess_shell` / `process.communicate()`. -/
structure ProcBehavior where
  duration : ℚ
  stdout : String
  stderr : String
  returncode : ℤ

/-- The outcome of one `BashTool.execute` call: the returned result dict,
plus whether the spawned process is still alive after the call returns
(`asyncio.wait_for` cancels the `communicate()` coroutine on timeout but
nothing in the code kills the subprocess, so on the timeout path the child
keeps running). -/
structure BashOutcome where
  result : ToolResult
  orphaned : Bool

/-- Embedding of `BashTool.execute` (guide lines 392–419):
`timeout_s = input.get("timeout", 120000) / 1000` with no cap; if the
process finishes before `timeout_s` the combined `stdout + stderr` is
returned in full with `is_error = returncode != 0`; otherwise
`asyncio.TimeoutError` is caught and an error result
`f"Command timed out after {timeout_s}s"` is returned, with the subprocess
left running. -/
def BashTool.execute (proc : ProcBehavior) (input : BashInput) : BashOutcome :=
  let timeout_s : ℚ := (input.timeout.getD 120000 : ℚ) / 1000
  if proc.duration < timeout_s then
    { result := ⟨proc.stdout ++ proc.stderr, proc.returncode != 0⟩
      orphaned := false }
  else
    { result := ⟨"Command timed out after " ++ toString timeout_s ++ "s", true⟩
      orphaned := true }

/-- One tool-invocation request contained in a completion-service
response (`tool_use.name`, `tool_use.input`). -/
structure ToolUse where
  name : String
  input : Params
deriving DecidableEq, Repr

/-- One scripted completion-service response: the streamed `response.text`,
the `response.full_content` appended verbatim as the assistant turn, and
the `response.tool_uses` list. -/
structure LLMResponse where
  text : String
  full_content : String
  tool_uses : List ToolUse
deriving DecidableEq, Repr

/-- The content of a conversation-history entry: either a plain text
payload (user message or the assistant's `full_content`) or a list of tool
results. -/
inductive MsgContent where
  | text (s : String)
  | results (rs : List ToolResult)
deriving DecidableEq, Repr

/-- One entry of `self.conversation_history`: `{"role": ..., "content": ...}`. -/
structure Message where
  role : String
  content : MsgContent
deriving DecidableEq, Repr

/-- Embedding of the `while True:` body of `AutonomousAgent.run` (guide
lines 186–222) driven by a scripted completion service (the list of
responses it will produce, in order). Each iteration consumes one
response; if it carries no tool requests the loop breaks with the history
untouched, returning the final response text and the number of dispatch
cycles performed so far; otherwise every requested tool is executed
through the registry and the assistant turn plus one tool-results turn are
appended before the next iteration. An exhausted script or an exception
escaping `ToolRegistry.execute` surfaces as `Except.error`. -/
def AutonomousAgent.loop (reg : ToolRegistry) :
    List LLMResponse → List Message → Except String (List Message × String × ℕ)
  | [], _ => .error "completion service produced no response"
  | r :: rest, history =>
    if r.tool_uses = [] then
      .ok (history, r.text, 0)
    else do
      let results ← r.tool_uses.mapM (fun tu => reg.execute tu.name tu.input)
      let history2 := history ++
        [⟨"assistant", .text r.full_content⟩, ⟨"user", .results results⟩]
      let out ← AutonomousAgent.loop reg rest history2
      .ok (out.1, out.2.1, out.2.2 + 1)

/-- Embedding of `AutonomousAgent.run` (guide lines 179–222): append the
user message to the conversation history as a user turn, then run the
agentic loop against the scripted completion service. Returns the final
history, the final assistant text (which the loop only yields to the
caller, never appends), and the number of dispatch cycles. -/
def AutonomousAgent.run (reg : ToolRegistry) (script : List LLMResponse)
    (history : List Message) (user_message : String) :
    Except String (List Message × String × ℕ) :=
  AutonomousAgent.loop reg script (history ++ [⟨"user", .text user_message⟩])

/-- A registered tool whose `execute` raises (`Except.error "boom"`). -/
def boomTool : Tool := ⟨"Boom", none, fun _ => .error "boom"⟩

/-- A registry holding only `boomTool`. -/
def boomReg : ToolRegistry := ToolRegistry.register ⟨[]⟩ boomTool

/-- C2 counterexample: the claim says an exception raised by a registered
tool's own `execute` is caught by `ToolRegistry.execute` and converted to
an error `ToolResult`, never propagating to the caller. For the registered
tool `boomTool`, whose `execute` raises `"boom"`, `ToolRegistry.execute`
returns `Except.error "boom"` — the exception propagates instead of being
converted to an `Except.ok` error result. -/
theorem c2_execute_exception_propagates_counterexample :
    ToolRegistry.execute boomReg "Boom" [] = .error "boom" := rfl

/-- C2 amended: `ToolRegistry.execute` does not wrap the tool's `execute`
in `try/except`; after a successful prehook, the tool's outcome —
exception included — is returned to the caller unchanged (only prehook
exceptions and unknown-tool dispatch are converted to error results). -/
theorem c2_registry_passthrough_amended (reg : ToolRegistry) (tool_name : String)
    (tool : Tool) (input input2 : Params)
    (h : reg.lookup tool_name = some tool) (hp : tool.prehook input = .ok input2) :
    ToolRegistry.execute reg tool_name input = tool.execute input2 := by
  simp only [ToolRegistry.execute, h]
  rw [hp]

/-- C2 witness: the amended theorem applied to `boomReg` at the empty
parameter mapping. -/
theorem c2_registry_passthrough_witness :
    ToolRegistry.execute boomReg "Boom" [] = boomTool.execute [] :=
  c2_registry_passthrough_amended boomReg "Boom" boomTool [] [] rfl rfl

/-- C6 counterexample: the claim says an exception raised by the wrapped
function is converted into an error result rather than propagating.
`MCPToolProxy.execute` has no `try/except`: for a wrapped function that
raises `"bq down"`, the call returns `Except.error "bq down"` — the
exception propagates to the caller instead of becoming an error result. -/
theorem c6_proxy_exception_propagates_counterexample :
    MCPToolProxy.execute (fun _ => .error "bq down") [] = .error "bq down" := rfl

/-- C6 amended: on a normal return, the wrapped function's heterogeneous
result (string or list of typed content blocks) is placed unchanged into
the uniform envelope with `is_error = false`; an exception raised by the
wrapped function propagates to the caller. -/
theorem c6_proxy_envelope_amended (tool_fn : Params → Except String MCPContent)
    (input : Params) :
    (∀ r, tool_fn input = .ok r →
      MCPToolProxy.execute tool_fn input = .ok ⟨r, false⟩) ∧
    (∀ e, tool_fn input = .error e →
      MCPToolProxy.execute tool_fn input = .error e) := by
  constructor <;> intro x hx <;> unfold MCPToolProxy.execute <;> rw [hx]

/-- A wrapped external capability returning a list of typed content
blocks, as the BigQuery tool factory in the guide does. -/
def bigqueryDemoFn : Params → Except String MCPContent :=
  fun _ => .ok (.blocks [⟨"text", "Saved 10 rows to humira_ca_top10.csv"⟩])

/-- C6 witness: the amended theorem applied to a block-returning wrapped
function and to a raising wrapped function. -/
theorem c6_proxy_envelope_witness :
    MCPToolProxy.execute bigqueryDemoFn [] =
      .ok ⟨.blocks [⟨"text", "Saved 10 rows to humira_ca_top10.csv"⟩], false⟩ ∧
    MCPToolProxy.execute (fun _ => .error "connection reset") [] =
      .error "connection reset" :=
  ⟨(c6_proxy_envelope_amended bigqueryDemoFn []).1 _ rfl,
   (c6_proxy_envelope_amended (fun _ => .error "connection reset") []).2
     "connection reset" rfl⟩

/-- C7: for every tool name absent from the registry and every parameter
mapping, `ToolRegistry.execute` returns (without raising — the outcome is
an `Except.ok`) an error result whose content names the unknown tool. -/
theorem c7_unknown_tool_error_result (reg : ToolRegistry) (tool_name : String)
    (input : Params) (h : reg.lookup tool_name = none) :
    ToolRegistry.execute reg tool_name input =
      .ok ⟨"Unknown tool: " ++ tool_name, true⟩ := by
  unfold ToolRegistry.execute
  rw [h]

/-- C7 witness: the empty registry queried for `does-not-exist` with an
empty parameter mapping. -/
theorem c7_unknown_tool_error_result_witness :
    ToolRegistry.execute ⟨[]⟩ "does-not-exist" [] =
      .ok ⟨"Unknown tool: does-not-exist", true⟩ :=
  c7_unknown_tool_error_result ⟨[]⟩ "does-not-exist" [] rfl

/-- A tool whose prehook always raises, standing for a path-validation
hook that rejects the input. -/
def hookDenyTool : Tool :=
  ⟨"Read", some (fun _ => .error "denied"), fun _ => .ok ⟨"file contents", false⟩⟩

/-- A registry holding only `hookDenyTool`. -/
def hookDenyReg : ToolRegistry := ⟨[("Read", hookDenyTool)]⟩

/-- A tool whose prehook normalizes the `path` parameter in place, and
whose `execute` reads the (possibly rewritten) `path` parameter. -/
def hookEditTool : Tool :=
  ⟨"Write", some (fun i => .ok (i.set "path" "/ws/x")),
   fun i => .ok ⟨(i.get "path").getD "", false⟩⟩

/-- A registry holding only `hookEditTool`. -/
def hookEditReg : ToolRegistry := ⟨[("Write", hookEditTool)]⟩

/-- C8: when a prehook is registered for a tool, it runs before the tool's
`execute` and its rewritten parameter mapping is what `execute` receives;
if the prehook raises, `ToolRegistry.execute` returns (as an `Except.ok`,
so nothing propagates) an error `ToolResult` carrying the hook's message,
and the result is the same whatever the tool's `execute` would have done. -/
theorem c8_prehook_behavior (reg : ToolRegistry) (tool_name : String) (tool : Tool)
    (hook : Params → Except String Params) (input : Params)
    (h : reg.lookup tool_name = some tool) (hh : tool.prehookFn = some hook) :
    (∀ e, hook input = .error e →
      ToolRegistry.execute reg tool_name input = .ok ⟨e, true⟩) ∧
    (∀ input2, hook input = .ok input2 →
      ToolRegistry.execute reg tool_name input = tool.execute input2) := by
  simp only [ToolRegistry.execute, Tool.prehook, h, hh]
  constructor
  · intro e he
    rw [he]
  · intro input2 hi
    rw [hi]

/-- C8 witness: the theorem applied to a raising hook (result carries the
hook's message, the tool's `execute` is never consulted) and to a
parameter-rewriting hook (the tool's `execute` receives the rewritten
mapping). -/
theorem c8_prehook_behavior_witness :
    ToolRegistry.execute hookDenyReg "Read" [("path", "../../etc/passwd")] =
      .ok ⟨"denied", true⟩ ∧
    ToolRegistry.execute hookEditReg "Write" [] =
      hookEditTool.execute [("path", "/ws/x")] :=
  ⟨(c8_prehook_behavior hookDenyReg "Read" hookDenyTool _
      [("path", "../../etc/passwd")] rfl rfl).1 "denied" rfl,
   (c8_prehook_behavior hookEditReg "Write" hookEditTool _ [] rfl rfl).2
     [("path", "/ws/x")] rfl⟩

/-- C1 counterexample: the claim says every raw path whose canonical form
equals the workspace root is returned without error. Take a filesystem
with no symlinks where canonicalization is the identity, workspace root
`/ws`, and raw path `/ws`: its canonical form is `/ws`, the workspace root
itself — yet `validate` raises `SecurityError`, because the containment
check `resolved.startswith(workspace_dir + os.sep)` demands the separator
and so rejects the root. -/
theorem c1_root_rejected_counterexample :
    PathValidator.validate id (PathValidator.mkWorkspace id "/ws") "/ws" "read" =
      .error ⟨"Access denied: read outside workspace. Path: /ws -> /ws"⟩ := by
  rfl

/-- C1 amended: `validate` raises `SecurityError` for every raw path whose
canonical form is not a strict extension of `workspace_root + "/"` — in
particular for everything resolving outside the root and for the root
itself — and returns the canonical path for every raw path whose canonical
form does extend `workspace_root + "/"` (i.e. is a descendant of the
root). -/
theorem c1_validate_containment_amended (canon : String → String)
    (workspace_dir path operation : String) :
    ((∃ rest, PathValidator.resolve canon workspace_dir path =
        workspace_dir ++ "/" ++ rest) →
      PathValidator.validate canon workspace_dir path operation =
        .ok (PathValidator.resolve canon workspace_dir path)) ∧
    ((¬ ∃ rest, PathValidator.resolve canon workspace_dir path =
        workspace_dir ++ "/" ++ rest) →
      ∃ e, PathValidator.validate canon workspace_dir path operation = .error e) := by
  constructor
  · rintro ⟨rest, hrest⟩
    have hsw : pyStartsWith (PathValidator.resolve canon workspace_dir path)
        (workspace_dir ++ "/") = true :=
      (pyStartsWith_iff_exists _ _).mpr ⟨rest, hrest⟩
    unfold PathValidator.validate
    simp [hsw]
  · intro hno
    have hsw : pyStartsWith (PathValidator.resolve canon workspace_dir path)
        (workspace_dir ++ "/") = false := by
      cases hb : pyStartsWith (PathValidator.resolve canon workspace_dir path)
          (workspace_dir ++ "/") with
      | false => rfl
      | true => exact absurd ((pyStartsWith_iff_exists _ _).mp hb) hno
    unfold PathValidator.validate
    simp [hsw]

/-- C1 witness: the amended theorem applied at the identity
canonicalization, workspace `/ws` and raw path `/ws/a.txt`, whose
canonical form is the strict descendant `/ws/a.txt`. -/
theorem c1_validate_containment_witness :
    (∃ rest, PathValidator.resolve id "/ws" "/ws/a.txt" = "/ws" ++ "/" ++ rest) ∧
    PathValidator.validate id "/ws" "/ws/a.txt" "read" = .ok "/ws/a.txt" :=
  ⟨⟨"a.txt", rfl⟩,
   (c1_validate_containment_amended id "/ws" "/ws/a.txt" "read").1 ⟨"a.txt", rfl⟩⟩

/-- C9: validating an already-canonical path strictly inside the workspace
root returns that same path unchanged, and feeding an accepted result back
into `validate` accepts it again unchanged — `validate` is idempotent on
accepted inputs (the hypotheses `canon q = q` and absoluteness of `q`
state that the canonicalization, like `os.path.realpath`, is idempotent
and returns absolute paths). -/
theorem c9_validate_idempotent (canon : String → String)
    (workspace_dir p q op op2 : String) :
    ((pyStartsWith p "/" = true) → (canon p = p) →
      (pyStartsWith p (workspace_dir ++ "/") = true) →
      PathValidator.validate canon workspace_dir p op = .ok p) ∧
    (PathValidator.validate canon workspace_dir p op = .ok q →
      pyStartsWith q "/" = true → canon q = q →
      PathValidator.validate canon workspace_dir q op2 = .ok q) := by
  constructor
  · intro habs hcanon hin
    unfold PathValidator.validate PathValidator.resolve
    simp [habs, hcanon, hin]
  · intro h habs hcanon
    have hq : pyStartsWith q (workspace_dir ++ "/") = true := by
      unfold PathValidator.validate at h
      by_cases hb : pyStartsWith (PathValidator.resolve canon workspace_dir p)
          (workspace_dir ++ "/") = true
      · simp only [hb, not_true, if_neg, Bool.not_eq_true', reduceIte,
          Except.ok.injEq] at h
        rw [← h]
        exact hb
      · simp [hb] at h
    unfold PathValidator.validate PathValidator.resolve
    simp [habs, hcanon, hq]

/-- C9 witness: the theorem applied at the identity canonicalization to
the already-canonical in-root path `/ws/notes.txt`, then applied again to
the value the first validation returned. -/
theorem c9_validate_idempotent_witness :
    PathValidator.validate id "/ws" "/ws/notes.txt" "write" = .ok "/ws/notes.txt" ∧
    PathValidator.validate id "/ws" "/ws/notes.txt" "read" = .ok "/ws/notes.txt" :=
  ⟨(c9_validate_idempotent id "/ws" "/ws/notes.txt" "/ws/notes.txt" "write" "read").1
      (by decide) rfl (by decide),
   (c9_validate_idempotent id "/ws" "/ws/notes.txt" "/ws/notes.txt" "write" "read").2
      ((c9_validate_idempotent id "/ws" "/ws/notes.txt" "/ws/notes.txt" "write" "read").1
        (by decide) rfl (by decide))
      (by decide) rfl⟩

theorem string_length_mk (l : List Char) : (String.mk l).length = l.length := rfl

theorem string_length_append (s t : String) :
    (s ++ t).length = s.length + t.length := by
  cases s with
  | mk a =>
    cases t with
    | mk b =>
      show (a ++ b).length = a.length + b.length
      exact List.length_append a b

/-- C3: the claim says the caller-supplied timeout is capped at a hard
maximum (the tool's own schema documents "max 600000" milliseconds) and
that on timeout the spawned process group is terminated. The code applies
neither: with `timeout = 1000000000` ms the effective limit is 1000000 s,
so a shell command running 700 s — far past the documented 600 s cap —
completes and yields a normal success result instead of a timeout error;
and on a genuine timeout (900 s command, 5 s limit) the error result is
produced but `asyncio.wait_for` only cancels the `communicate()` await,
no kill is issued, and the child process survives the invocation. -/
theorem c3_bash_timeout_uncapped_and_orphan :
    BashTool.execute ⟨700, "", "", 0⟩ ⟨"sleep 700", some 1000000000⟩ =
      ⟨⟨"", false⟩, false⟩ ∧
    (BashTool.execute ⟨900, "", "", 0⟩ ⟨"sleep 900", some 5000⟩).result =
      ⟨"Command timed out after 5s", true⟩ ∧
    (BashTool.execute ⟨900, "", "", 0⟩ ⟨"sleep 900", some 5000⟩).orphaned = true := by
  refine ⟨?_, ?_, ?_⟩
  · unfold BashTool.execute
    norm_num
  · unfold BashTool.execute
    norm_num
    rfl
  · unfold BashTool.execute
    norm_num

/-- A combined stdout of 30001 bytes, one byte past the claimed 30 KB
budget. -/
def bigOutput : String := ⟨List.replicate 30001 'a'⟩

theorem bigOutput_length : bigOutput.length = 30001 := by
  unfold bigOutput
  rw [string_length_mk]
  exact List.length_replicate 30001 'a'

/-- C4: the claim (and the repository's own implementation plan, which
mandates "Output truncation at 30k characters" with a dedicated test) says
combined stdout+stderr beyond the fixed budget is truncated to the budget
and the truncation flagged. Evaluating the code on a command whose stdout
is 30001 characters: the returned content is the full 30001-character
output — nothing is truncated — and the result is a plain success with no
truncation flag of any kind. -/
theorem c4_bash_output_not_truncated :
    (BashTool.execute ⟨1, bigOutput, "", 0⟩
      ⟨"yes | head -c 30001", none⟩).result.content.length = 30001 ∧
    (BashTool.execute ⟨1, bigOutput, "", 0⟩
      ⟨"yes | head -c 30001", none⟩).result.is_error = false := by
  have h1 : BashTool.execute ⟨1, bigOutput, "", 0⟩ ⟨"yes | head -c 30001", none⟩ =
      ⟨⟨bigOutput ++ "", false⟩, false⟩ := by
    unfold BashTool.execute
    norm_num
  have happ : (bigOutput ++ "").length = 30001 := by
    rw [string_length_append, bigOutput_length]
    rfl
  rw [h1]
  exact ⟨happ, rfl⟩

/-- C10: for every shell command whose process completes before the
(uncapped) effective timeout, the result's `is_error` is `true` exactly
when the exit code is nonzero, and the content is the full combined
stdout+stderr. -/
theorem c10_bash_exit_code_error_flag (proc : ProcBehavior) (input : BashInput)
    (h : proc.duration < (input.timeout.getD 120000 : ℚ) / 1000) :
    ((BashTool.execute proc input).result.is_error = true ↔ proc.returncode ≠ 0) ∧
    (BashTool.execute proc input).result.content = proc.stdout ++ proc.stderr := by
  unfold BashTool.execute
  simp [h, bne_iff_ne]

/-- C10 witness: a 2-second command with the default timeout and exit
code 3. -/
theorem c10_bash_exit_code_error_flag_witness :
    ((2:ℚ) < ((((none : Option ℕ).getD 120000 : ℕ) : ℚ)) / 1000) ∧
    ((BashTool.execute ⟨2, "out", "", 3⟩ ⟨"exit 3", none⟩).result.is_error = true ↔
      (3:ℤ) ≠ 0) :=
  ⟨by norm_num, (c10_bash_exit_code_error_flag ⟨2, "out", "", 3⟩ ⟨"exit 3", none⟩
    (by norm_num)).1⟩

/-- A shell tool that succeeds immediately, used to script the loop. -/
def echoTool : Tool := ⟨"Bash", none, fun _ => .ok ⟨"hello", false⟩⟩

/-- A registry holding only `echoTool`. -/
def echoReg : ToolRegistry := ⟨[("Bash", echoTool)]⟩

/-- The scripted service's first turn: one tool request. -/
def scriptedR1 : LLMResponse :=
  ⟨"Let me run that.", "assistant-turn-1", [⟨"Bash", [("command", "echo hello")]⟩]⟩

/-- The scripted service's second turn: no tool requests. -/
def scriptedR2 : LLMResponse := ⟨"All done.", "assistant-turn-2", []⟩

/-- C5 counterexample: the claim says the assistant's content is appended
to the conversation state on every completion-service turn, so the
scripted one-tool-then-done run would append the final assistant turn as
well. Running the loop against that script appends exactly the user
message, the tool-request assistant turn and the tool-result turn — three
entries in total — and the final assistant content `assistant-turn-2` is
nowhere in the history: it is only returned to the caller. -/
theorem c5_final_turn_not_appended_counterexample :
    AutonomousAgent.run echoReg [scriptedR1, scriptedR2] [] "hi" =
      .ok ([⟨"user", .text "hi"⟩, ⟨"assistant", .text "assistant-turn-1"⟩,
        ⟨"user", .results [⟨"hello", false⟩]⟩], "All done.", 1) ∧
    ¬ (Message.mk "assistant" (.text "assistant-turn-2") ∈
        [Message.mk "user" (.text "hi"), ⟨"assistant", .text "assistant-turn-1"⟩,
         ⟨"user", .results [⟨"hello", false⟩]⟩]) :=
  ⟨by set_option maxRecDepth 8000 in rfl, by decide⟩

/-- C5 amended: for a scripted completion service issuing exactly one tool
request and then a no-tool-request turn, the loop performs exactly one
dispatch cycle and appends exactly two new turns after the user message —
the tool-request assistant turn and the tool-result turn; the final
assistant turn is returned to the caller but not appended to the
conversation state. -/
theorem c5_loop_turns_amended (reg : ToolRegistry) (init : List Message)
    (msg : String) (r1 r2 : LLMResponse) (tu : ToolUse) (res : ToolResult)
    (h1 : r1.tool_uses = [tu]) (h2 : r2.tool_uses = [])
    (hex : ToolRegistry.execute reg tu.name tu.input = .ok res) :
    AutonomousAgent.run reg [r1, r2] init msg =
      .ok (init ++ [⟨"user", .text msg⟩, ⟨"assistant", .text r1.full_content⟩,
        ⟨"user", .results [res]⟩], r2.text, 1) := by
  have hmap : List.mapM (fun tu : ToolUse => ToolRegistry.execute reg tu.name tu.input)
      [tu] = .ok [res] := by
    unfold List.mapM List.mapM.loop
    rw [hex]
    rfl
  have hinner : ∀ hist : List Message, AutonomousAgent.loop reg [r2] hist =
      .ok (hist, r2.text, 0) := by
    intro hist
    unfold AutonomousAgent.loop
    rw [h2]
    simp
  unfold AutonomousAgent.run AutonomousAgent.loop
  rw [h1]
  rw [if_neg (List.cons_ne_nil tu [])]
  rw [hmap]
  simp only [hinner, Except.bind, List.append_assoc]
  rfl

/-- C5 witness: the amended theorem applied to the scripted service
`[scriptedR1, scriptedR2]` over `echoReg`, starting from a one-message
prior history. -/
theorem c5_loop_turns_witness :
    AutonomousAgent.run echoReg [scriptedR1, scriptedR2]
      [⟨"user", .text "earlier"⟩] "hi" =
      .ok ([⟨"user", .text "earlier"⟩] ++
        [⟨"user", .text "hi"⟩, ⟨"assistant", .text "assistant-turn-1"⟩,
         ⟨"user", .results [⟨"hello", false⟩]⟩], "All done.", 1) :=
  c5_loop_turns_amended echoReg [⟨"user", .text "earlier"⟩] "hi" scriptedR1 scriptedR2
    ⟨"Bash", [("command", "echo hello")]⟩ ⟨"hello", false⟩ rfl rfl rfl

end Celestra
